import Mathlib

/-!
Verification of the kindly-chat-companion repository.

This file gives a shallow embedding of the parts of the code the claims
talk about:

* the AI response service: the client `generateTherapyResponse` /
  `generateFallbackResponse` (client/src/lib/openai.ts), the Express
  `/api/therapy/response` handler with its `fallbackResponses` table
  (server routes), and the `TherapyChat` client-side fallback table;
* the storage layer `DatabaseStorage` (server storage) over the Drizzle
  schema (shared schema): sessions, messages and settings rows, with the
  schema's foreign-key and uniqueness constraints, modelled as a pure
  state-passing interpreter.  Timestamps are naturals; the `now` field of
  the state models the wall clock and is advanced at every write, so
  `defaultNow()` / `new Date()` timestamps are strictly increasing.

Randomness (`Math.floor(Math.random() * len)`) is modelled by an arbitrary
natural `rand` reduced modulo the list length, and the outcome of the
outbound LLM call by an explicit `LLMOutcome` parameter (`failure` covers a
network error, a thrown exception, a non-ok HTTP status and a quota/auth
error, all of which the source catches identically).
-/

namespace KindlyChat

/-- A chat message sent to the completion API (role + content), as built by
both `generateTherapyResponse` (openai.ts) and the Express handler. -/
structure ChatMessage where
  role : String
  content : String
deriving DecidableEq

/-- A client-side conversation history entry (openai.ts `conversationHistory`
elements: `{ text, isUser }`). -/
structure HistoryEntry where
  text : String
  isUser : Bool
deriving DecidableEq

/-- The system instruction of openai.ts `generateTherapyResponse`
(lines 32-44), with the personality interpolated. -/
def systemPrompt (personality : String) : String :=
  "You are Dr. Sarah, a compassionate and professional virtual therapist. Your personality is "
    ++ personality ++
    ". \n        \nGuidelines:\n- Provide supportive, empathetic responses\n- Ask thoughtful follow-up questions\n- Use active listening techniques\n- Keep responses concise but meaningful (2-3 sentences max)\n- Maintain professional therapeutic boundaries\n- Show genuine care and understanding\n- Use a warm, calming tone\n- If someone expresses serious mental health concerns, gently suggest professional help\n\nRemember: You are not a replacement for professional therapy, but a supportive companion for emotional wellness."

/-- JavaScript `array.slice(-n)`: the last `n` entries (the whole array when
it has fewer than `n`). -/
def sliceLast (n : Nat) (l : List α) : List α :=
  l.drop (l.length - n)

/-- Role given to a history entry by openai.ts (line 52):
`msg.isUser ? 'user' : 'assistant'`. -/
def historyRole (m : HistoryEntry) : String :=
  if m.isUser then "user" else "assistant"

/-- openai.ts lines 29-61: the messages array sent to the completion API:
the system message, then (via `forEach`/push) the last 6 history entries,
then the new user message. -/
def buildOpenAIMessages (conversationHistory : List HistoryEntry)
    (userMessage personality : String) : List ChatMessage :=
  let base : List ChatMessage := [⟨"system", systemPrompt personality⟩]
  let recentHistory := sliceLast 6 conversationHistory
  let withHistory :=
    recentHistory.foldl (fun acc m => acc ++ [⟨historyRole m, m.text⟩]) base
  withHistory ++ [⟨"user", userMessage⟩]

/-- The JSON body of the openai.ts completion request (lines 69-76). -/
structure CompletionRequest where
  model : String
  messages : List ChatMessage
  max_tokens : Nat
  temperature : ℚ
  presence_penalty : ℚ
  frequency_penalty : ℚ
deriving DecidableEq

/-- openai.ts lines 63-77: the full request body sent to
`https://api.openai.com/v1/chat/completions`. -/
def buildCompletionRequest (conversationHistory : List HistoryEntry)
    (userMessage personality : String) : CompletionRequest :=
  { model := "gpt-4o"
    messages := buildOpenAIMessages conversationHistory userMessage personality
    max_tokens := 150
    temperature := 7/10
    presence_penalty := 1/10
    frequency_penalty := 1/10 }

/-- JavaScript `haystack.includes(needle)` on strings. -/
def strIncludes (haystack needle : String) : Bool :=
  decide (needle.toList <:+: haystack.toList)

/-- openai.ts lines 99-105: the emotion-detection keyword table, in the
source's object-entry order. -/
def emotionKeywords : List (String × List String) :=
  [("sad", ["sad", "depressed", "down", "upset", "cry", "hurt", "pain"]),
   ("anxious", ["anxious", "worry", "nervous", "stress", "panic", "afraid", "scared"]),
   ("angry", ["angry", "mad", "furious", "frustrated", "annoyed", "rage"]),
   ("happy", ["happy", "good", "great", "excited", "joy", "wonderful", "amazing"]),
   ("confused", ["confused", "lost", "don\x27t know", "unsure", "unclear"])]

/-- openai.ts lines 107-116: scan the (lowercased) message for the first
emotion whose keyword list matches; default `"neutral"`. -/
def detectEmotion (message : String) : String :=
  ((emotionKeywords.find? fun ek => ek.2.any fun kw => strIncludes message kw).map
    (fun ek => ek.1)).getD "neutral"

/-- openai.ts lines 120-151: the `warm` sub-table of the fallback response
templates, keyed by detected emotion. -/
def openaiWarmTable : List (String × List String) :=
  [("sad",
    ["I can hear the pain in your words, and I want you to know that your feelings are completely valid. What do you think might help you feel a little lighter today?",
     "It sounds like you\x27re going through a really difficult time. Remember that it\x27s okay to not be okay. What\x27s one small thing that usually brings you comfort?",
     "Thank you for sharing something so personal with me. Your courage to open up shows real strength. How long have you been feeling this way?"]),
   ("anxious",
    ["It sounds like anxiety is really weighing on you right now. Let\x27s take a moment to breathe together. What specific thoughts are making you feel most worried?",
     "Anxiety can feel so overwhelming, but you\x27re not alone in this. Have you noticed any particular triggers that make these feelings stronger?",
     "I can sense the tension you\x27re carrying. Sometimes naming our fears can help reduce their power. What\x27s the worst-case scenario you\x27re imagining?"]),
   ("angry",
    ["Your anger makes complete sense given what you\x27re dealing with. It\x27s actually a sign that something important to you has been affected. What do you think is at the core of these feelings?",
     "I can feel the intensity of your emotions, and that\x27s okay. Anger often protects other feelings underneath. What might those feelings be?",
     "It takes courage to express anger constructively. What would it look like if this situation were resolved in a way that felt right to you?"]),
   ("happy",
    ["I love hearing the joy in your words! It\x27s wonderful that you\x27re experiencing happiness. What\x27s contributing most to these positive feelings?",
     "Your happiness is contagious, even through our conversation. I\x27m curious - what made this moment special for you?",
     "It\x27s beautiful to witness someone in a good place. How can you nurture and sustain these positive feelings?"]),
   ("confused",
    ["Feeling uncertain can be really uncomfortable, but it often means you\x27re on the verge of important growth. What aspects of the situation feel clearest to you?",
     "Confusion is a natural part of processing complex experiences. Let\x27s explore this together - what questions are coming up for you most strongly?",
     "Sometimes sitting with uncertainty teaches us valuable things about ourselves. What would help you feel more grounded right now?"]),
   ("neutral",
    ["I\x27m here to listen to whatever you\x27d like to share. What\x27s been on your mind lately?",
     "Thank you for being here with me today. How are you feeling in this moment?",
     "I appreciate you taking this time for yourself. What would be most helpful to talk about right now?"])]

/-- openai.ts line 119-152: the personality-keyed response table of
`generateFallbackResponse`.  Its only key is `warm`. -/
def openaiResponsesTable : List (String × List (String × List String)) :=
  [("warm", openaiWarmTable)]

/-- JavaScript `arr[Math.floor(Math.random() * arr.length)]`, with the
random draw modelled by an arbitrary natural reduced modulo the length. -/
def pickRandom (l : List String) (rand : Nat) : String :=
  l.getD (rand % l.length) ""

/-- openai.ts line 172: `responses[personality] || responses.warm`. -/
def openaiResponseCategory (personality : String) : List (String × List String) :=
  ((openaiResponsesTable.find? fun e => e.1 == personality).map (fun e => e.2)).getD
    openaiWarmTable

/-- openai.ts line 173: `responseCategory[detectedEmotion] || responseCategory.neutral`. -/
def openaiCategoryResponses (responseCategory : List (String × List String))
    (detectedEmotion : String) : List String :=
  ((responseCategory.find? fun e => e.1 == detectedEmotion).map (fun e => e.2)).getD
    (((responseCategory.find? fun e => e.1 == "neutral").map (fun e => e.2)).getD [])

/-- openai.ts lines 95-177 `generateFallbackResponse`: lowercase the
message, detect the emotion, resolve the personality sub-table, resolve the
emotion category and pick a random element. -/
def generateFallbackResponse (userMessage personality : String) (rand : Nat) : String :=
  pickRandom
    (openaiCategoryResponses (openaiResponseCategory personality)
      (detectEmotion userMessage.toLower))
    rand

/-- Outcome of the outbound completion call: `failure` covers a missing
network, a thrown exception, a non-ok status and auth/quota errors (all
caught by the source); `success content` a 200 reply whose first choice has
the given content (the source turns an absent content into `' '`-free
empty string via `|| ''`). -/
inductive LLMOutcome where
  | failure
  | success (content : String)
deriving DecidableEq

/-- openai.ts lines 14-93 `generateTherapyResponse`: without an API key,
fall back immediately; with one, return the LLM text on success and the
rule-based fallback when the call throws or returns a non-ok status. -/
def generateTherapyResponse (apiKey : Option String) (outcome : LLMOutcome)
    (userMessage : String) (conversationHistory : List HistoryEntry)
    (personality : String) (rand : Nat) : String :=
  match apiKey with
  | none => generateFallbackResponse userMessage personality rand
  | some _ =>
    match outcome with
    | .failure => generateFallbackResponse userMessage personality rand
    | .success content => content

/-- The Express `/api/therapy/response` handler's `fallbackResponses` table
(routes, lines 141-167): three hand-written strings per personality. -/
def fallbackResponses : List (String × List String) :=
  [("warm",
    ["I hear you, and I want you to know that what you\x27re feeling is completely valid. Can you tell me more about what\x27s been weighing on your mind?",
     "Thank you for sharing that with me. It takes courage to open up. How has this been affecting your daily life?",
     "I\x27m here with you through this. What do you think might help you feel more supported right now?"]),
   ("professional",
    ["I understand. Let\x27s examine this situation more closely. What specific aspects concern you most?",
     "Can you identify any patterns or triggers related to what you\x27ve described?",
     "From a therapeutic perspective, what coping strategies have you tried before?"]),
   ("gentle",
    ["Take your time. There\x27s no rush here. How would you like to begin exploring this?",
     "I can sense this is difficult to talk about. We can go at whatever pace feels comfortable for you.",
     "Your experience matters deeply. What feels most important for you to share right now?"]),
   ("encouraging",
    ["You\x27ve already taken an important step by reaching out. What strengths do you see in yourself?",
     "I believe in your ability to work through this. What progress have you made recently?",
     "You have more resilience than you might realize. How have you overcome challenges before?"]),
   ("analytical",
    ["Let\x27s break this down systematically. What are the key components of this situation?",
     "I\x27m noticing some interesting themes in what you\x27ve shared. How do these connect for you?",
     "From a cognitive perspective, what thoughts seem to be driving these feelings?"])]

/-- Routes line 169: `fallbackResponses[personality] || fallbackResponses.warm`. -/
def expressPersonalityResponses (personality : String) : List String :=
  ((fallbackResponses.find? fun e => e.1 == personality).map (fun e => e.2)).getD
    (((fallbackResponses.find? fun e => e.1 == "warm").map (fun e => e.2)).getD [])

/-- The system instruction of the Express handler (routes lines 98-105). -/
def expressSystemContent (personality : String) : String :=
  "You are Dr. Sarah, a compassionate virtual therapist with a " ++ personality ++
    " personality. \n              \n              Provide supportive, empathetic responses that:\n              - Show active listening and validation\n              - Ask thoughtful follow-up questions\n              - Maintain appropriate therapeutic boundaries\n              - Keep responses concise but meaningful (2-3 sentences)\n              - Match the "
    ++ personality ++ " personality style"

/-- Routes lines 95-112: the messages array of the Express handler —
system message, `(conversationHistory || []).slice(-6)`, user message. -/
def expressMessages (conversationHistory : List ChatMessage)
    (userMessage personality : String) : List ChatMessage :=
  ChatMessage.mk "system" (expressSystemContent personality) ::
    (sliceLast 6 conversationHistory ++ [⟨"user", userMessage⟩])

/-- Routes lines 114-128: the request body of the Express handler. -/
def expressCompletionRequest (conversationHistory : List ChatMessage)
    (userMessage personality : String) : CompletionRequest :=
  { model := "gpt-4o"
    messages := expressMessages conversationHistory userMessage personality
    max_tokens := 150
    temperature := 7/10
    presence_penalty := 1/10
    frequency_penalty := 1/10 }

/-- Routes line 132: the default used when a 200 reply carries an empty
content (`data.choices[0]?.message?.content || '...'`). -/
def expressEmptyContentDefault : String :=
  "I hear you. Can you tell me more about what you\x27re experiencing?"

/-- Routes lines 84-181, the `/api/therapy/response` handler: with an API
key and a successful call, answer the (possibly defaulted) LLM content;
otherwise select a random entry of the personality-keyed fallback table.
There is no inspection of `userMessage` on the fallback path. -/
def expressTherapyResponse (apiKey : Option String) (outcome : LLMOutcome)
    (userMessage personality : String) (rand : Nat) : String :=
  let fallback := pickRandom (expressPersonalityResponses personality) rand
  match apiKey with
  | none => fallback
  | some _ =>
    match outcome with
    | .failure => fallback
    | .success content => if content == "" then expressEmptyContentDefault else content

/-- TherapyChat.tsx lines 96-132: the client-side fallback table used when
the backend API call fails (five strings per personality). -/
def therapyChatResponses : List (String × List String) :=
  [("warm",
    ["I hear you, and I want you to know that what you\x27re feeling is completely valid. Can you tell me more about what\x27s been weighing on your mind?",
     "Thank you for sharing that with me. It takes courage to open up. How has this been affecting your daily life?",
     "I\x27m here with you through this. What do you think might help you feel more supported right now?",
     "Your feelings are important, and I\x27m grateful you trust me with them. What would you like to explore together?",
     "That sounds really challenging. You\x27re not alone in feeling this way. What resources or support do you have in your life?"]),
   ("professional",
    ["I understand. Let\x27s examine this situation more closely. What specific aspects concern you most?",
     "Can you identify any patterns or triggers related to what you\x27ve described?",
     "From a therapeutic perspective, what coping strategies have you tried before?",
     "Let\x27s work together to develop some concrete steps forward. What are your primary goals?",
     "What evidence do you have that supports or challenges these thoughts you\x27re experiencing?"]),
   ("gentle",
    ["Take your time. There\x27s no rush here. How would you like to begin exploring this?",
     "I can sense this is difficult to talk about. We can go at whatever pace feels comfortable for you.",
     "Your experience matters deeply. What feels most important for you to share right now?",
     "It\x27s okay to feel uncertain. What small step forward might feel manageable today?",
     "You\x27re being so brave by being here. What would feel most helpful for you in this moment?"]),
   ("encouraging",
    ["You\x27ve already taken an important step by reaching out. What strengths do you see in yourself?",
     "I believe in your ability to work through this. What progress have you made recently?",
     "You have more resilience than you might realize. How have you overcome challenges before?",
     "This conversation shows your commitment to growth. What motivates you to keep moving forward?",
     "You\x27re capable of positive change. What would that change look like for you?"]),
   ("analytical",
    ["Let\x27s break this down systematically. What are the key components of this situation?",
     "I\x27m noticing some interesting themes in what you\x27ve shared. How do these connect for you?",
     "From a cognitive perspective, what thoughts seem to be driving these feelings?",
     "What underlying beliefs might be influencing your current experience?",
     "Let\x27s examine the relationship between your thoughts, feelings, and behaviors here."])]

/-- TherapyChat.tsx line 134: `responses[personality] || responses.warm`. -/
def therapyChatPersonalityResponses (therapistPersonality : String) : List String :=
  ((therapyChatResponses.find? fun e => e.1 == therapistPersonality).map (fun e => e.2)).getD
    (((therapyChatResponses.find? fun e => e.1 == "warm").map (fun e => e.2)).getD [])

/-- TherapyChat.tsx lines 134-135: the personality lookup and the random
pick, executed when `apiService.sendChatMessage` throws. -/
def therapyChatFallback (therapistPersonality : String) (rand : Nat) : String :=
  pickRandom (therapyChatPersonalityResponses therapistPersonality) rand

/-! ## Storage layer (shared schema + DatabaseStorage + routes) -/

/-- A `users` row (schema). -/
structure UserRow where
  id : Nat
  username : String
  password : String
  createdAt : Nat
deriving DecidableEq

/-- A `therapy_sessions` row (schema). -/
structure TherapySessionRow where
  id : Nat
  userId : Option Nat
  title : String
  createdAt : Nat
  updatedAt : Nat
deriving DecidableEq

/-- A `therapy_messages` row (schema). -/
structure TherapyMessageRow where
  id : Nat
  sessionId : Nat
  content : String
  isUser : Bool
  mood : Option String
  createdAt : Nat
deriving DecidableEq

/-- A `user_settings` row (schema).  The schema declares `speech_rate` and
`speech_pitch` as `integer` columns (its comment: 0-200, stored as integer,
90 = 0.9), so the stored values are integers. -/
structure UserSettingsRow where
  id : Nat
  userId : Nat
  voiceEnabled : Bool
  speechRate : Int
  speechPitch : Int
  language : String
  therapistPersonality : String
  audioVisualizationEnabled : Bool
  updatedAt : Nat
deriving DecidableEq

/-- `InsertTherapyMessage` (insertTherapyMessageSchema picks sessionId,
content, isUser, mood). -/
structure InsertTherapyMessage where
  sessionId : Nat
  content : String
  isUser : Bool
  mood : Option String
deriving DecidableEq

/-- `InsertUserSettings` (insertUserSettingsSchema omits id and updatedAt).
`speechRate`/`speechPitch` carry the JavaScript numbers the route hands to
the storage layer — possibly fractional (one route variant passes 0.9/1.1,
the other 90/110) — which the integer columns then accept or reject. -/
structure InsertUserSettings where
  userId : Nat
  voiceEnabled : Bool
  speechRate : ℚ
  speechPitch : ℚ
  language : String
  therapistPersonality : String
  audioVisualizationEnabled : Bool
deriving DecidableEq

/-- A partial settings update (`Partial<InsertUserSettings>`): only the
supplied fields change.  The numeric fields hold values the integer
columns can store (a fractional update value would be rejected by the
`speech_rate`/`speech_pitch` columns exactly as on insert; no claim
exercises that path). -/
structure UserSettingsPatch where
  userId : Option Nat := none
  voiceEnabled : Option Bool := none
  speechRate : Option Int := none
  speechPitch : Option Int := none
  language : Option String := none
  therapistPersonality : Option String := none
  audioVisualizationEnabled : Option Bool := none
deriving DecidableEq

/-- The database state.  `nextId` models the serial id sequences and `now`
the wall clock; every write stores `now` where the schema uses
`defaultNow()` / the code uses `new Date()`, then advances the clock, so
successive writes carry strictly increasing timestamps. -/
structure DBState where
  users : List UserRow
  sessions : List TherapySessionRow
  messages : List TherapyMessageRow
  settings : List UserSettingsRow
  nextId : Nat
  now : Nat
deriving DecidableEq

/-- `DatabaseStorage.getSession`: select the session with the given id. -/
def getSession (sessionId : Nat) (s : DBState) : Option TherapySessionRow :=
  s.sessions.find? fun r => r.id == sessionId

/-- `DatabaseStorage.updateSessionTitle`: set `title` and
`updatedAt = new Date()` on the matching row. -/
def updateSessionTitle (sessionId : Nat) (title : String) (s : DBState) : DBState :=
  { s with
    sessions := s.sessions.map fun r =>
      if r.id == sessionId then { r with title := title, updatedAt := s.now } else r
    now := s.now + 1 }

/-- `DatabaseStorage.createTherapyMessage`: insert a message row.  The
schema declares `session_id` not-null referencing `therapy_sessions.id`, so
the insert fails (and stores nothing) when the session does not exist. -/
def createTherapyMessage (m : InsertTherapyMessage) (s : DBState) :
    Except String (TherapyMessageRow × DBState) :=
  if (s.sessions.find? fun r => r.id == m.sessionId).isSome then
    let row : TherapyMessageRow :=
      ⟨s.nextId, m.sessionId, m.content, m.isUser, m.mood, s.now⟩
    .ok (row, { s with
      messages := s.messages ++ [row]
      nextId := s.nextId + 1
      now := s.now + 1 })
  else
    .error "foreign key violation: therapy_messages.session_id"

/-- The `ORDER BY created_at` comparison used by `getSessionMessages`. -/
def byCreatedAt (a b : TherapyMessageRow) : Prop :=
  a.createdAt ≤ b.createdAt

instance : DecidableRel byCreatedAt := fun a b => Nat.decLe a.createdAt b.createdAt

instance : IsTotal TherapyMessageRow byCreatedAt :=
  ⟨fun a b => Nat.le_total a.createdAt b.createdAt⟩

instance : IsTrans TherapyMessageRow byCreatedAt :=
  ⟨fun _ _ _ hab hbc => Nat.le_trans hab hbc⟩

/-- `DatabaseStorage.getSessionMessages`: the session's messages ordered by
`created_at` ascending. -/
def getSessionMessages (sessionId : Nat) (s : DBState) : List TherapyMessageRow :=
  List.insertionSort byCreatedAt (s.messages.filter fun m => m.sessionId == sessionId)

/-- `DatabaseStorage.getUserSettings`: select the settings row of a user. -/
def getUserSettings (userId : Nat) (s : DBState) : Option UserSettingsRow :=
  s.settings.find? fun r => r.userId == userId

/-- `DatabaseStorage.createUserSettings`: insert a settings row.  The
`speech_rate`/`speech_pitch` columns are `integer`, so a fractional input
value is rejected at parameter binding (`invalid input syntax for type
integer`), before any constraint check.  The schema declares `user_id`
not-null-unique referencing `users.id`, so the insert also fails when the
user does not exist or already has settings.  `updatedAt` takes the schema
default `defaultNow()`. -/
def createUserSettings (ins : InsertUserSettings) (s : DBState) :
    Except String (UserSettingsRow × DBState) :=
  if ins.speechRate.den = 1 ∧ ins.speechPitch.den = 1 then
    if (s.users.find? fun u => u.id == ins.userId).isNone then
      .error "foreign key violation: user_settings.user_id"
    else if (s.settings.find? fun r => r.userId == ins.userId).isSome then
      .error "unique violation: user_settings.user_id"
    else
      let row : UserSettingsRow :=
        ⟨s.nextId, ins.userId, ins.voiceEnabled, ins.speechRate.num, ins.speechPitch.num,
         ins.language, ins.therapistPersonality, ins.audioVisualizationEnabled, s.now⟩
      .ok (row, { s with
        settings := s.settings ++ [row]
        nextId := s.nextId + 1
        now := s.now + 1 })
  else
    .error "invalid input syntax for type integer"

/-- Apply a partial update to a settings row:
`set({ ...updateSettings, updatedAt: new Date() })`. -/
def applySettingsPatch (p : UserSettingsPatch) (r : UserSettingsRow) (now : Nat) :
    UserSettingsRow :=
  { r with
    userId := p.userId.getD r.userId
    voiceEnabled := p.voiceEnabled.getD r.voiceEnabled
    speechRate := p.speechRate.getD r.speechRate
    speechPitch := p.speechPitch.getD r.speechPitch
    language := p.language.getD r.language
    therapistPersonality := p.therapistPersonality.getD r.therapistPersonality
    audioVisualizationEnabled := p.audioVisualizationEnabled.getD r.audioVisualizationEnabled
    updatedAt := now }

/-- `DatabaseStorage.updateUserSettings`: patch the matching row (refreshing
`updatedAt`) and return it (`.returning()` destructured: `undefined` when no
row matched). -/
def updateUserSettings (userId : Nat) (p : UserSettingsPatch) (s : DBState) :
    Option UserSettingsRow × DBState :=
  ((s.settings.find? fun r => r.userId == userId).map fun r => applySettingsPatch p r s.now,
   { s with
     settings := s.settings.map fun r =>
       if r.userId == userId then applySettingsPatch p r s.now else r
     now := s.now + 1 })

/-- The default settings object built by the `GET /api/settings/:userId`
route (routes lines 191-199). -/
def defaultInsertSettings (userId : Nat) : InsertUserSettings :=
  { userId := userId
    voiceEnabled := true
    speechRate := 9/10
    speechPitch := 11/10
    language := "en-US"
    therapistPersonality := "warm"
    audioVisualizationEnabled := false }

/-- The `GET /api/settings/:userId` route (routes lines 184-210): return the
stored settings, lazily creating the documented defaults when none exist. -/
def routeGetSettings (userId : Nat) (s : DBState) :
    Except String (UserSettingsRow × DBState) :=
  match getUserSettings userId s with
  | some settings => .ok (settings, s)
  | none => createUserSettings (defaultInsertSettings userId) s

/-- The default settings object built by the second `GET /api/settings/:userId`
route variant (routes lines 358-366), whose numeric defaults are the
schema's scaled integers (90 = 0.9, 110 = 1.1). -/
def defaultInsertSettingsV2 (userId : Nat) : InsertUserSettings :=
  { userId := userId
    voiceEnabled := true
    speechRate := 90
    speechPitch := 110
    language := "en-US"
    therapistPersonality := "warm"
    audioVisualizationEnabled := false }

/-- The second `GET /api/settings/:userId` route variant (routes lines
351-374): identical logic, but the lazy-create passes the scaled-integer
defaults the schema's columns can store. -/
def routeGetSettingsV2 (userId : Nat) (s : DBState) :
    Except String (UserSettingsRow × DBState) :=
  match getUserSettings userId s with
  | some settings => .ok (settings, s)
  | none => createUserSettings (defaultInsertSettingsV2 userId) s

/-- Append a list of messages to one session through
`createTherapyMessage`, as the `POST /api/messages` route does one request
at a time (the inserts all target `sessionId`). -/
def appendMessages (sessionId : Nat) : List InsertTherapyMessage → DBState → DBState
  | [], s => s
  | m :: ms, s =>
    match createTherapyMessage { m with sessionId := sessionId } s with
    | .ok (_, s2) => appendMessages sessionId ms s2
    | .error _ => s

/-! ## Helper lemmas -/

theorem pickRandom_mem (l : List String) (hl : l ≠ []) (rand : Nat) :
    pickRandom l rand ∈ l := by
  have hlen : 0 < l.length := List.length_pos.mpr hl
  have h : rand % l.length < l.length := Nat.mod_lt _ hlen
  unfold pickRandom
  rw [List.getD_eq_getElem?_getD, List.getElem?_eq_getElem h]
  exact List.getElem_mem h

theorem pickRandom_ne_empty (l : List String) (hl : l ≠ []) (hne : "" ∉ l) (rand : Nat) :
    pickRandom l rand ≠ "" := by
  intro h
  exact hne (h ▸ pickRandom_mem l hl rand)

theorem expressPersonalityResponses_ne_nil (personality : String) :
    expressPersonalityResponses personality ≠ [] := by
  unfold expressPersonalityResponses
  cases hf : fallbackResponses.find? fun e => e.1 == personality with
  | none => simp only [hf, Option.map_none', Option.getD_none]; decide
  | some e =>
    simp only [hf, Option.map_some', Option.getD_some]
    have hm := List.mem_of_find?_eq_some hf
    have hall : ∀ x ∈ fallbackResponses, x.2 ≠ [] := by decide
    exact hall e hm

theorem expressPersonalityResponses_no_empty (personality : String) :
    "" ∉ expressPersonalityResponses personality := by
  unfold expressPersonalityResponses
  cases hf : fallbackResponses.find? fun e => e.1 == personality with
  | none => simp only [hf, Option.map_none', Option.getD_none]; decide
  | some e =>
    simp only [hf, Option.map_some', Option.getD_some]
    have hm := List.mem_of_find?_eq_some hf
    have hall : ∀ x ∈ fallbackResponses, "" ∉ x.2 := by decide
    exact hall e hm

theorem openaiResponseCategory_eq (personality : String) :
    openaiResponseCategory personality = openaiWarmTable := by
  unfold openaiResponseCategory
  cases hf : openaiResponsesTable.find? fun e => e.1 == personality with
  | none => simp only [hf, Option.map_none', Option.getD_none]
  | some e =>
    simp only [hf, Option.map_some', Option.getD_some]
    have hm := List.mem_of_find?_eq_some hf
    have hall : ∀ x ∈ openaiResponsesTable, x.2 = openaiWarmTable := by
      intro x hx
      simp only [openaiResponsesTable, List.mem_singleton] at hx
      rw [hx]
    exact hall e hm

theorem detectEmotion_mem (message : String) :
    detectEmotion message ∈ ["sad", "anxious", "angry", "happy", "confused", "neutral"] := by
  unfold detectEmotion
  cases hf : emotionKeywords.find? fun ek => ek.2.any fun kw => strIncludes message kw with
  | none => simp only [hf, Option.map_none', Option.getD_none]; decide
  | some ek =>
    simp only [hf, Option.map_some', Option.getD_some]
    have hm := List.mem_of_find?_eq_some hf
    have hall : ∀ x ∈ emotionKeywords,
        x.1 ∈ ["sad", "anxious", "angry", "happy", "confused", "neutral"] := by decide
    exact hall ek hm

theorem openaiCategoryResponses_facts (detectedEmotion : String)
    (he : detectedEmotion ∈ ["sad", "anxious", "angry", "happy", "confused", "neutral"]) :
    openaiCategoryResponses openaiWarmTable detectedEmotion ≠ []
    ∧ "" ∉ openaiCategoryResponses openaiWarmTable detectedEmotion := by
  fin_cases he <;> exact ⟨by decide, by decide⟩

theorem generateFallbackResponse_mem (userMessage personality : String) (rand : Nat) :
    generateFallbackResponse userMessage personality rand
      ∈ openaiCategoryResponses openaiWarmTable (detectEmotion userMessage.toLower) := by
  unfold generateFallbackResponse
  rw [openaiResponseCategory_eq]
  exact pickRandom_mem _ (openaiCategoryResponses_facts _ (detectEmotion_mem _)).1 rand

theorem generateFallbackResponse_ne_empty (userMessage personality : String) (rand : Nat) :
    generateFallbackResponse userMessage personality rand ≠ "" := by
  unfold generateFallbackResponse
  rw [openaiResponseCategory_eq]
  have h := openaiCategoryResponses_facts _ (detectEmotion_mem userMessage.toLower)
  exact pickRandom_ne_empty _ h.1 h.2 rand

theorem expressTherapyResponse_failure (apiKey : Option String)
    (userMessage personality : String) (rand : Nat) :
    expressTherapyResponse apiKey .failure userMessage personality rand
      = pickRandom (expressPersonalityResponses personality) rand := by
  cases apiKey <;> rfl

theorem generateTherapyResponse_failure (apiKey : Option String) (userMessage : String)
    (conversationHistory : List HistoryEntry) (personality : String) (rand : Nat) :
    generateTherapyResponse apiKey .failure userMessage conversationHistory personality rand
      = generateFallbackResponse userMessage personality rand := by
  cases apiKey <;> rfl

theorem foldl_push_eq_append (l : List HistoryEntry) (acc : List ChatMessage) :
    l.foldl (fun a m => a ++ [ChatMessage.mk (historyRole m) m.text]) acc
      = acc ++ (l.map fun m => ChatMessage.mk (historyRole m) m.text) := by
  induction l generalizing acc with
  | nil => simp
  | cons x xs ih => simp [ih]

/-! ## Claim theorems: AI response service -/

/-- C1, counterexample.  The claim says a chat request whose user message
contains a crisis keyword (here "I want to die") returns a fixed safety
response, bypassing the personality-keyed canned table and independent of
the selected personality.  In the code there is no crisis check at all: on
the no-LLM path the handler answers the crisis message from the
personality-keyed canned table, and the answer differs between the `warm`
and the `professional` personality, so it is not a fixed
personality-independent safety response. -/
theorem c1_crisis_counterexample :
    expressTherapyResponse none .failure "I want to die" "warm" 0
      ∈ expressPersonalityResponses "warm"
    ∧ expressTherapyResponse none .failure "I want to die" "warm" 0
      ≠ expressTherapyResponse none .failure "I want to die" "professional" 0 := by
  constructor
  · decide
  · decide

/-- C1 (amended): the response path contains no crisis-keyword
short-circuit.  A chat request whose user message contains a crisis
keyword is handled like any other message: when the LLM call fails or no
API key is set, the Express handler answers it from the personality-keyed
canned table, and the client `generateTherapyResponse` answers it through
`generateFallbackResponse` — and the result is never empty. -/
theorem c1_crisis_amended (apiKey : Option String) (personality : String)
    (conversationHistory : List HistoryEntry) (rand : Nat) :
    expressTherapyResponse apiKey .failure "I want to die" personality rand
      ∈ expressPersonalityResponses personality
    ∧ generateTherapyResponse apiKey .failure "I want to die" conversationHistory
        personality rand
      = generateFallbackResponse "I want to die" personality rand
    ∧ generateTherapyResponse apiKey .failure "I want to die" conversationHistory
        personality rand ≠ "" := by
  refine ⟨?_, generateTherapyResponse_failure apiKey _ conversationHistory personality rand, ?_⟩
  · rw [expressTherapyResponse_failure]
    exact pickRandom_mem _ (expressPersonalityResponses_ne_nil personality) rand
  · rw [generateTherapyResponse_failure]
    exact generateFallbackResponse_ne_empty "I want to die" personality rand

/-- C2: for every user message and every personality in the enumerated
set, when the LLM call fails (no API key, network/auth/quota error — all
modelled by `LLMOutcome.failure`, which the source catches), the Express
handler returns a non-empty string drawn from the fallback table entry
keyed by exactly that personality, and the client `generateTherapyResponse`
also returns a non-empty string; neither propagates an exception (both are
total functions). -/
theorem c2_fallback_nonempty (personality : String)
    (hp : personality ∈ ["warm", "professional", "gentle", "encouraging", "analytical"])
    (apiKey : Option String) (userMessage : String)
    (conversationHistory : List HistoryEntry) (rand : Nat) :
    expressTherapyResponse apiKey .failure userMessage personality rand
      ∈ expressPersonalityResponses personality
    ∧ fallbackResponses.find? (fun e => e.1 == personality)
      = some (personality, expressPersonalityResponses personality)
    ∧ expressTherapyResponse apiKey .failure userMessage personality rand ≠ ""
    ∧ generateTherapyResponse apiKey .failure userMessage conversationHistory
        personality rand ≠ "" := by
  refine ⟨?_, ?_, ?_, ?_⟩
  · rw [expressTherapyResponse_failure]
    exact pickRandom_mem _ (expressPersonalityResponses_ne_nil personality) rand
  · fin_cases hp <;> decide
  · rw [expressTherapyResponse_failure]
    exact pickRandom_ne_empty _ (expressPersonalityResponses_ne_nil personality)
      (expressPersonalityResponses_no_empty personality) rand
  · rw [generateTherapyResponse_failure]
    exact generateFallbackResponse_ne_empty userMessage personality rand

theorem c2_fallback_nonempty_witness :
    ("warm" ∈ ["warm", "professional", "gentle", "encouraging", "analytical"])
    ∧ (expressTherapyResponse none .failure "I feel sad" "warm" 0
        ∈ expressPersonalityResponses "warm"
      ∧ fallbackResponses.find? (fun e => e.1 == "warm")
        = some ("warm", expressPersonalityResponses "warm")
      ∧ expressTherapyResponse none .failure "I feel sad" "warm" 0 ≠ ""
      ∧ generateTherapyResponse none .failure "I feel sad" [] "warm" 0 ≠ "") :=
  ⟨by decide, c2_fallback_nonempty "warm" (by decide) none "I feel sad" [] 0⟩

/-- C9: for every conversation history, user message and personality, the
request built for the external completion API is the system instruction,
then exactly the last 6 history entries (everything earlier dropped), then
the new user message, with `max_tokens = 150` and `temperature = 0.7` —
for the client `generateTherapyResponse` request and the Express handler
request alike. -/
theorem c9_prompt_window (conversationHistory : List HistoryEntry)
    (expressHistory : List ChatMessage) (userMessage personality : String) :
    (buildCompletionRequest conversationHistory userMessage personality).messages
      = ChatMessage.mk "system" (systemPrompt personality) ::
          (((conversationHistory.drop (conversationHistory.length - 6)).map
              fun m => ChatMessage.mk (historyRole m) m.text) ++
            [ChatMessage.mk "user" userMessage])
    ∧ (sliceLast 6 conversationHistory).length ≤ 6
    ∧ (buildCompletionRequest conversationHistory userMessage personality).max_tokens = 150
    ∧ (buildCompletionRequest conversationHistory userMessage personality).temperature = 7/10
    ∧ (expressCompletionRequest expressHistory userMessage personality).messages
      = ChatMessage.mk "system" (expressSystemContent personality) ::
          (expressHistory.drop (expressHistory.length - 6) ++ [ChatMessage.mk "user" userMessage])
    ∧ (expressCompletionRequest expressHistory userMessage personality).max_tokens = 150
    ∧ (expressCompletionRequest expressHistory userMessage personality).temperature = 7/10 := by
  refine ⟨?_, ?_, rfl, rfl, rfl, rfl, rfl⟩
  · show buildOpenAIMessages conversationHistory userMessage personality = _
    simp only [buildOpenAIMessages]
    rw [foldl_push_eq_append]
    simp [sliceLast]
  · simp only [sliceLast, List.length_drop]
    omega

/-- C10: the fallback selection is total on the personality string.  When
the personality is not a key of the table, the Express lookup, the
TherapyChat lookup and the openai.ts lookup all silently resolve to the
`warm` entry, and the selected response is still one of the hand-written
strings and non-empty. -/
theorem c10_unknown_personality (personality userMessage : String) (rand : Nat)
    (hkey : fallbackResponses.find? (fun e => e.1 == personality) = none) :
    expressPersonalityResponses personality = expressPersonalityResponses "warm"
    ∧ therapyChatFallback personality rand = therapyChatFallback "warm" rand
    ∧ openaiResponseCategory personality = openaiWarmTable
    ∧ expressTherapyResponse none .failure userMessage personality rand
      ∈ expressPersonalityResponses "warm"
    ∧ expressTherapyResponse none .failure userMessage personality rand ≠ "" := by
  have hw : personality ≠ "warm" := by
    intro h; subst h; exact absurd hkey (by decide)
  have hp : personality ≠ "professional" := by
    intro h; subst h; exact absurd hkey (by decide)
  have hg : personality ≠ "gentle" := by
    intro h; subst h; exact absurd hkey (by decide)
  have he : personality ≠ "encouraging" := by
    intro h; subst h; exact absurd hkey (by decide)
  have ha : personality ≠ "analytical" := by
    intro h; subst h; exact absurd hkey (by decide)
  have hexpress : expressPersonalityResponses personality = expressPersonalityResponses "warm" := by
    unfold expressPersonalityResponses
    rw [hkey]
    rfl
  have htc : therapyChatResponses.find? (fun e => e.1 == personality) = none := by
    rw [List.find?_eq_none]
    intro x hx
    fin_cases hx <;>
      · intro h
        first
        | exact hw (eq_of_beq h).symm
        | exact hp (eq_of_beq h).symm
        | exact hg (eq_of_beq h).symm
        | exact he (eq_of_beq h).symm
        | exact ha (eq_of_beq h).symm
  refine ⟨hexpress, ?_, openaiResponseCategory_eq personality, ?_, ?_⟩
  · unfold therapyChatFallback therapyChatPersonalityResponses
    rw [htc]
    rfl
  · rw [expressTherapyResponse_failure, ← hexpress]
    exact pickRandom_mem _ (expressPersonalityResponses_ne_nil personality) rand
  · rw [expressTherapyResponse_failure]
    exact pickRandom_ne_empty _ (expressPersonalityResponses_ne_nil personality)
      (expressPersonalityResponses_no_empty personality) rand

theorem c10_unknown_personality_witness :
    (fallbackResponses.find? (fun e => e.1 == "robotic") = none)
    ∧ (expressPersonalityResponses "robotic" = expressPersonalityResponses "warm"
      ∧ therapyChatFallback "robotic" 0 = therapyChatFallback "warm" 0
      ∧ openaiResponseCategory "robotic" = openaiWarmTable
      ∧ expressTherapyResponse none .failure "hello" "robotic" 0
        ∈ expressPersonalityResponses "warm"
      ∧ expressTherapyResponse none .failure "hello" "robotic" 0 ≠ "") :=
  ⟨by decide, c10_unknown_personality "robotic" "hello" 0 (by decide)⟩

/-! ## Storage helper lemmas -/

theorem find?_map_preserving {α : Type} (p : α → Bool) (g : α → α)
    (hg : ∀ x, p (g x) = p x) (l : List α) :
    (l.map g).find? p = (l.find? p).map g := by
  induction l with
  | nil => rfl
  | cons x xs ih =>
    cases hpx : p x with
    | true =>
      rw [List.map_cons, List.find?_cons_of_pos _ ((hg x).trans hpx),
        List.find?_cons_of_pos _ hpx]
      rfl
    | false =>
      rw [List.map_cons, List.find?_cons_of_neg, List.find?_cons_of_neg, ih]
      · simp [hpx]
      · simp [hg, hpx]

theorem createTherapyMessage_ok (sid : Nat) (m : InsertTherapyMessage) (s : DBState)
    (hs : (getSession sid s).isSome) :
    createTherapyMessage { m with sessionId := sid } s
      = .ok (⟨s.nextId, sid, m.content, m.isUser, m.mood, s.now⟩,
             { s with
               messages := s.messages ++ [⟨s.nextId, sid, m.content, m.isUser, m.mood, s.now⟩]
               nextId := s.nextId + 1
               now := s.now + 1 }) := by
  unfold getSession at hs
  obtain ⟨r, hr⟩ := Option.isSome_iff_exists.mp hs
  unfold createTherapyMessage
  simp only [hr, Option.isSome_some, if_true]

theorem appendMessages_filter_count (sid : Nat) (ms : List InsertTherapyMessage) (s : DBState)
    (hs : (getSession sid s).isSome) :
    ((appendMessages sid ms s).messages.filter fun x => x.sessionId == sid).length
      = (s.messages.filter fun x => x.sessionId == sid).length + ms.length := by
  induction ms generalizing s with
  | nil => rfl
  | cons m ms ih =>
    rw [appendMessages, createTherapyMessage_ok sid m s hs]
    have hs2 : (getSession sid ({ s with
        messages := s.messages ++ [⟨s.nextId, sid, m.content, m.isUser, m.mood, s.now⟩]
        nextId := s.nextId + 1
        now := s.now + 1 } : DBState)).isSome := hs
    dsimp only
    rw [ih _ hs2]
    simp [List.filter_append]
    omega

theorem getSession_updateSessionTitle (s : DBState) (sid : Nat) (title : String)
    (row : TherapySessionRow) (hf : getSession sid s = some row) :
    getSession sid (updateSessionTitle sid title s)
      = some { row with title := title, updatedAt := s.now } := by
  unfold getSession at hf
  have hpred := List.find?_some hf
  unfold getSession updateSessionTitle
  rw [find?_map_preserving _ _ (fun x => by split <;> rfl), hf]
  simp only [Option.map_some']
  rw [if_pos hpred]

theorem updateUserSettings_found (s : DBState) (userId : Nat) (p : UserSettingsPatch)
    (row : UserSettingsRow) (hf : getUserSettings userId s = some row)
    (hpu : p.userId = none) :
    (updateUserSettings userId p s).1 = some (applySettingsPatch p row s.now)
    ∧ getUserSettings userId (updateUserSettings userId p s).2
      = some (applySettingsPatch p row s.now) := by
  unfold getUserSettings at hf
  have hpred := List.find?_some hf
  constructor
  · unfold updateUserSettings
    rw [hf]
    rfl
  · unfold getUserSettings updateUserSettings
    rw [find?_map_preserving _ _
      (fun x => by split <;> simp [applySettingsPatch, hpu]), hf]
    simp only [Option.map_some']
    rw [if_pos hpred]

/-- A small concrete database: one user, no settings. -/
def c3WitnessState : DBState :=
  ⟨[⟨1, "demo_user", "demo_password", 0⟩], [], [], [], 2, 5⟩

/-- A small concrete database: one session with one stored message. -/
def c5WitnessState : DBState :=
  ⟨[], [⟨1, none, "Initial", 0, 0⟩], [⟨2, 1, "Hello", false, some "idle", 1⟩], [], 3, 2⟩

/-- A small concrete database: one user with a settings row. -/
def c6WitnessState : DBState :=
  ⟨[⟨1, "demo_user", "demo_password", 0⟩], [], [],
   [⟨2, 1, true, 90, 110, "en-US", "warm", false, 1⟩], 3, 7⟩

/-! ## Claim theorems: storage layer -/

/-- C3, counterexample.  The claim says the first GET for a user with no
settings row creates and returns a row with speechRate=0.9 and
speechPitch=1.1.  The schema declares `speech_rate`/`speech_pitch` as
`integer` columns, which cannot hold 0.9/1.1: at a concrete state with
user 1 and no settings row, the cited route's lazy insert of 0.9/1.1 is
rejected by the integer columns, so the GET fails and no settings row is
created or returned at all. -/
theorem c3_fractional_defaults_counterexample :
    ((c3WitnessState.users.find? fun u => u.id == 1).isSome = true)
    ∧ getUserSettings 1 c3WitnessState = none
    ∧ routeGetSettings 1 c3WitnessState = .error "invalid input syntax for type integer" := by
  refine ⟨rfl, rfl, ?_⟩
  rw [show routeGetSettings 1 c3WitnessState
    = createUserSettings (defaultInsertSettings 1) c3WitnessState from rfl]
  unfold createUserSettings defaultInsertSettings
  rw [if_neg (by norm_num)]

/-- C3 (amended): for every user and state in which the user has no
settings row, the schema-consistent `GET /api/settings/:userId` variant —
whose lazy-create passes the scaled-integer defaults the integer columns
store (90 = 0.9, 110 = 1.1) — creates exactly one settings row holding
voiceEnabled=true, speechRate=90, speechPitch=110, language="en-US",
therapistPersonality="warm", audioVisualizationEnabled=false, returns it,
and a second GET returns the same row without creating another.  (The
other route variant's 0.9/1.1 insert is rejected by the integer columns
and creates nothing.) -/
theorem c3_lazy_scaled_defaults (s : DBState) (userId : Nat)
    (hu : (s.users.find? fun u => u.id == userId).isSome)
    (hn : getUserSettings userId s = none) :
    ∃ (row : UserSettingsRow) (s2 : DBState),
      routeGetSettingsV2 userId s = .ok (row, s2)
      ∧ row.voiceEnabled = true
      ∧ row.speechRate = 90
      ∧ row.speechPitch = 110
      ∧ row.language = "en-US"
      ∧ row.therapistPersonality = "warm"
      ∧ row.audioVisualizationEnabled = false
      ∧ row.userId = userId
      ∧ s2.settings = s.settings ++ [row]
      ∧ (s2.settings.filter fun r => r.userId == userId).length = 1
      ∧ routeGetSettingsV2 userId s2 = .ok (row, s2) := by
  obtain ⟨u, hu2⟩ := Option.isSome_iff_exists.mp hu
  unfold getUserSettings at hn
  have hnone := List.find?_eq_none.mp hn
  refine ⟨⟨s.nextId, userId, true, 90, 110, "en-US", "warm", false, s.now⟩,
    { s with
      settings := s.settings ++ [⟨s.nextId, userId, true, 90, 110, "en-US", "warm", false, s.now⟩]
      nextId := s.nextId + 1
      now := s.now + 1 },
    ?_, rfl, rfl, rfl, rfl, rfl, rfl, rfl, rfl, ?_, ?_⟩
  · unfold routeGetSettingsV2 getUserSettings
    rw [hn]
    unfold createUserSettings defaultInsertSettingsV2
    rw [if_pos (by constructor <;> rfl)]
    simp only [hu2, Option.isSome_some, Option.isNone_some, hn, Bool.false_eq_true,
      if_false, if_true]
    rfl
  · show ((s.settings ++
        [(⟨s.nextId, userId, true, 90, 110, "en-US", "warm", false, s.now⟩ :
          UserSettingsRow)]).filter fun r => r.userId == userId).length = 1
    rw [List.filter_append, List.filter_eq_nil_iff.mpr hnone]
    simp
  · unfold routeGetSettingsV2 getUserSettings
    rw [show ({ s with
        settings := s.settings ++ [⟨s.nextId, userId, true, 90, 110, "en-US", "warm", false, s.now⟩]
        nextId := s.nextId + 1
        now := s.now + 1 } : DBState).settings
      = s.settings ++ [⟨s.nextId, userId, true, 90, 110, "en-US", "warm", false, s.now⟩] from rfl]
    rw [List.find?_append, hn]
    simp

theorem c3_lazy_scaled_defaults_witness :
    ((c3WitnessState.users.find? fun u => u.id == 1).isSome = true)
    ∧ getUserSettings 1 c3WitnessState = none
    ∧ (∃ (row : UserSettingsRow) (s2 : DBState),
        routeGetSettingsV2 1 c3WitnessState = .ok (row, s2)
        ∧ row.voiceEnabled = true
        ∧ row.speechRate = 90
        ∧ row.speechPitch = 110
        ∧ row.language = "en-US"
        ∧ row.therapistPersonality = "warm"
        ∧ row.audioVisualizationEnabled = false
        ∧ row.userId = 1
        ∧ s2.settings = c3WitnessState.settings ++ [row]
        ∧ (s2.settings.filter fun r => r.userId == 1).length = 1
        ∧ routeGetSettingsV2 1 s2 = .ok (row, s2)) :=
  ⟨rfl, rfl, c3_lazy_scaled_defaults c3WitnessState 1 rfl rfl⟩

/-- C4: creating a message whose session does not exist fails with the
schema's foreign-key violation; no state (hence no message row) is
produced. -/
theorem c4_message_requires_session (s : DBState) (m : InsertTherapyMessage)
    (hn : getSession m.sessionId s = none) :
    createTherapyMessage m s
      = .error "foreign key violation: therapy_messages.session_id" := by
  unfold getSession at hn
  unfold createTherapyMessage
  rw [hn]
  rfl

theorem c4_message_requires_session_witness :
    getSession 1 (⟨[], [], [], [], 1, 0⟩ : DBState) = none
    ∧ createTherapyMessage ⟨1, "hi", true, none⟩ (⟨[], [], [], [], 1, 0⟩ : DBState)
      = .error "foreign key violation: therapy_messages.session_id" :=
  ⟨rfl, c4_message_requires_session _ ⟨1, "hi", true, none⟩ rfl⟩

/-- C5: for every state and existing session, appending N messages to the
session and then listing its messages returns exactly N messages more than
before, and the listing is sorted by `createdAt` (non-decreasing). -/
theorem c5_append_then_list (s : DBState) (sid : Nat) (ms : List InsertTherapyMessage)
    (hs : (getSession sid s).isSome) :
    (getSessionMessages sid (appendMessages sid ms s)).length
      = (getSessionMessages sid s).length + ms.length
    ∧ List.Sorted byCreatedAt (getSessionMessages sid (appendMessages sid ms s)) := by
  constructor
  · unfold getSessionMessages
    rw [List.length_insertionSort, List.length_insertionSort]
    exact appendMessages_filter_count sid ms s hs
  · exact List.sorted_insertionSort byCreatedAt _

theorem c5_append_then_list_witness :
    ((getSession 1 c5WitnessState).isSome = true)
    ∧ ((getSessionMessages 1
          (appendMessages 1 [⟨1, "a", true, none⟩, ⟨1, "b", false, none⟩] c5WitnessState)).length
        = (getSessionMessages 1 c5WitnessState).length
            + [(⟨1, "a", true, none⟩ : InsertTherapyMessage), ⟨1, "b", false, none⟩].length
      ∧ List.Sorted byCreatedAt (getSessionMessages 1
          (appendMessages 1 [⟨1, "a", true, none⟩, ⟨1, "b", false, none⟩] c5WitnessState))) :=
  ⟨rfl, c5_append_then_list c5WitnessState 1 [⟨1, "a", true, none⟩, ⟨1, "b", false, none⟩] rfl⟩

/-- C6: for every user with an existing settings row, a partial update that
supplies only `voiceEnabled` changes that field and refreshes `updatedAt`
to the operation time, while every other field (speechRate, speechPitch,
language, therapistPersonality, audioVisualizationEnabled, userId, id)
keeps its value — both in the returned row and in the stored state. -/
theorem c6_patch_single_field (s : DBState) (userId : Nat) (row : UserSettingsRow) (b : Bool)
    (hf : getUserSettings userId s = some row) :
    ∃ r2,
      (updateUserSettings userId { voiceEnabled := some b } s).1 = some r2
      ∧ getUserSettings userId (updateUserSettings userId { voiceEnabled := some b } s).2
        = some r2
      ∧ r2.voiceEnabled = b
      ∧ r2.updatedAt = s.now
      ∧ r2.speechRate = row.speechRate
      ∧ r2.speechPitch = row.speechPitch
      ∧ r2.language = row.language
      ∧ r2.therapistPersonality = row.therapistPersonality
      ∧ r2.audioVisualizationEnabled = row.audioVisualizationEnabled
      ∧ r2.userId = row.userId
      ∧ r2.id = row.id := by
  obtain ⟨h1, h2⟩ := updateUserSettings_found s userId { voiceEnabled := some b } row hf rfl
  exact ⟨_, h1, h2, rfl, rfl, rfl, rfl, rfl, rfl, rfl, rfl, rfl⟩

theorem c6_patch_single_field_witness :
    (getUserSettings 1 c6WitnessState
      = some ⟨2, 1, true, 90, 110, "en-US", "warm", false, 1⟩)
    ∧ (∃ r2,
        (updateUserSettings 1 { voiceEnabled := some false } c6WitnessState).1 = some r2
        ∧ getUserSettings 1 (updateUserSettings 1 { voiceEnabled := some false } c6WitnessState).2
          = some r2
        ∧ r2.voiceEnabled = false
        ∧ r2.updatedAt = c6WitnessState.now
        ∧ r2.speechRate = (90 : Int)
        ∧ r2.speechPitch = (110 : Int)
        ∧ r2.language = "en-US"
        ∧ r2.therapistPersonality = "warm"
        ∧ r2.audioVisualizationEnabled = false
        ∧ r2.userId = 1
        ∧ r2.id = 2) :=
  ⟨rfl, c6_patch_single_field c6WitnessState 1
    ⟨2, 1, true, 90, 110, "en-US", "warm", false, 1⟩ false rfl⟩

/-- C7: renaming an existing session sets the new title and refreshes
`updatedAt` to the operation time, while the session's `createdAt`, id,
owner and its message list are unchanged. -/
theorem c7_rename_frame (s : DBState) (sid : Nat) (title : String) (row : TherapySessionRow)
    (hf : getSession sid s = some row) :
    ∃ r2,
      getSession sid (updateSessionTitle sid title s) = some r2
      ∧ r2.title = title
      ∧ r2.updatedAt = s.now
      ∧ r2.createdAt = row.createdAt
      ∧ r2.id = row.id
      ∧ r2.userId = row.userId
      ∧ getSessionMessages sid (updateSessionTitle sid title s) = getSessionMessages sid s := by
  exact ⟨_, getSession_updateSessionTitle s sid title row hf, rfl, rfl, rfl, rfl, rfl, rfl⟩

theorem c7_rename_frame_witness :
    (getSession 1 c5WitnessState = some ⟨1, none, "Initial", 0, 0⟩)
    ∧ (∃ r2,
        getSession 1 (updateSessionTitle 1 "Renamed" c5WitnessState) = some r2
        ∧ r2.title = "Renamed"
        ∧ r2.updatedAt = c5WitnessState.now
        ∧ r2.createdAt = (⟨1, none, "Initial", 0, 0⟩ : TherapySessionRow).createdAt
        ∧ r2.id = (⟨1, none, "Initial", 0, 0⟩ : TherapySessionRow).id
        ∧ r2.userId = (⟨1, none, "Initial", 0, 0⟩ : TherapySessionRow).userId
        ∧ getSessionMessages 1 (updateSessionTitle 1 "Renamed" c5WitnessState)
          = getSessionMessages 1 c5WitnessState) :=
  ⟨rfl, c7_rename_frame c5WitnessState 1 "Renamed" ⟨1, none, "Initial", 0, 0⟩ rfl⟩

/-- C8, counterexample.  The claim says `updatedAt` is bumped both on
rename and on message append, so that after either operation
`updatedAt` is at least the operation time.  At the state below the clock
is 5; appending a message to session 1 succeeds but leaves the session row
with `updatedAt = 0 < 5`: `createTherapyMessage` only inserts into
`therapy_messages` and never touches the session row. -/
theorem c8_message_bump_counterexample :
    createTherapyMessage ⟨1, "hello", true, none⟩
        (⟨[], [⟨1, none, "Initial", 0, 0⟩], [], [], 2, 5⟩ : DBState)
      = .ok (⟨2, 1, "hello", true, none, 5⟩,
             ⟨[], [⟨1, none, "Initial", 0, 0⟩], [⟨2, 1, "hello", true, none, 5⟩], [], 3, 6⟩)
    ∧ (0:Nat) < 5 :=
  ⟨rfl, by decide⟩

/-- C8 (amended): `updatedAt` is bumped on rename — it is set to the
operation time — but appending a message leaves every session row,
including `updatedAt`, unchanged; only the rename path refreshes it. -/
theorem c8_updatedAt_amended (s : DBState) (sid : Nat) (title : String)
    (row : TherapySessionRow) (m : InsertTherapyMessage)
    (hf : getSession sid s = some row) :
    (getSession sid (updateSessionTitle sid title s)).map (fun r => r.updatedAt) = some s.now
    ∧ (∀ result s2, createTherapyMessage m s = .ok (result, s2) → s2.sessions = s.sessions) := by
  constructor
  · rw [getSession_updateSessionTitle s sid title row hf]
    rfl
  · intro result s2 h
    unfold createTherapyMessage at h
    split at h
    · cases h
      rfl
    · cases h

theorem c8_updatedAt_amended_witness :
    (getSession 1 c5WitnessState = some ⟨1, none, "Initial", 0, 0⟩)
    ∧ ((getSession 1 (updateSessionTitle 1 "Renamed" c5WitnessState)).map
        (fun r => r.updatedAt) = some c5WitnessState.now
      ∧ (∀ result s2,
          createTherapyMessage ⟨1, "later", true, none⟩ c5WitnessState = .ok (result, s2) →
            s2.sessions = c5WitnessState.sessions)) :=
  ⟨rfl, c8_updatedAt_amended c5WitnessState 1 "Renamed" ⟨1, none, "Initial", 0, 0⟩
    ⟨1, "later", true, none⟩ rfl⟩

end KindlyChat
